import Mathlib

/-!
Verification of the tsafe goroutine-safety library (src/goroutine.go).

The embedding models:
  * a task body as its observable outcome: normal completion, or a panic
    carrying the value that a subsequent recover() call yields (`none`
    models a nil recover result, which Go cannot distinguish from the
    absence of a panic);
  * the Go defer/recover discipline generically: a deferred function may
    or may not call recover(), and a panic escapes the strand exactly when
    the body panicked and no deferred function called recover();
  * the observable actions of the recovery path as an event trace:
    reads of the global logger slot, Print calls on a logger, and
    invocations of a caller-supplied recover handler;
  * the global logger slot (defaultLogger guarded by loggerMutex) as a
    single value of type Option R, with SetLogger and getLogger acting on
    it; concurrent writers are modelled by the serialization the RWMutex
    enforces (a fold of SetLogger over the list of written values).

V is the type of panic payloads, R the type of logger identities.
-/

namespace Tsafe

/-- Outcome of running a task body: it either returns normally or panics.
`panics v` carries what recover() yields inside a deferred function run
during the panic; `panics none` models a nil recover result. -/
inductive Outcome (V : Type) where
  | ok : Outcome V
  | panics : Option V → Outcome V
deriving DecidableEq, Repr

/-- What a recover() call inside a deferred function yields for a body with
outcome `o`: nil when the body completed normally, the panic value
otherwise. -/
def recoverOf {V : Type} : Outcome V → Option V
  | Outcome.ok => none
  | Outcome.panics v => v

/-- Observable actions performed inside the recovery boundary of a strand:
a read of the global logger slot (getLogger), a Print call on a logger
with a fault value and a captured stack trace, or an invocation of a
caller-supplied recover handler with the fault value alone. -/
inductive Event (V R : Type) where
  | registryRead : Option R → Event V R
  | reporterPrint : R → V → List String → Event V R
  | handlerCall : V → Event V R
deriving DecidableEq, Repr

/-- The fault values passed to the caller-supplied recover handler. -/
def handlerCalls {V R : Type} : List (Event V R) → List V
  | [] => []
  | Event.handlerCall v :: es => v :: handlerCalls es
  | _ :: es => handlerCalls es

/-- The values returned by getLogger reads performed inside the boundary. -/
def registryReads {V R : Type} : List (Event V R) → List (Option R)
  | [] => []
  | Event.registryRead r :: es => r :: registryReads es
  | _ :: es => registryReads es

/-- The (logger, fault, trace) triples of Print calls performed inside the
boundary. -/
def reporterCalls {V R : Type} : List (Event V R) → List (R × V × List String)
  | [] => []
  | Event.reporterPrint r v t :: es => (r, v, t) :: reporterCalls es
  | _ :: es => reporterCalls es

/-- A deferred function: whether it calls recover(), and the events it
performs given the value recover() yielded (nil if it does not call
recover()). -/
structure Deferred (V R : Type) where
  callsRecover : Bool
  run : Option V → List (Event V R)

/-- Result of executing one strand: the events its recovery boundary
performed, and the panic that escapes the strand (crashing the process)
when one does. -/
structure StrandResult (V R : Type) where
  events : List (Event V R)
  escaped : Option (Option V)
deriving DecidableEq, Repr

/-- Go semantics of `func() \x7b defer d(); body() \x7d` for a body with outcome
`o`: the deferred function runs after the body, recover() yields the panic
value only if `d` calls it, and the panic escapes the strand exactly when
the body panicked and `d` did not call recover(). -/
def runWithDefer {V R : Type} (o : Outcome V) (d : Deferred V R) : StrandResult V R :=
  { events := d.run (if d.callsRecover then recoverOf o else none)
    escaped :=
      match o with
      | Outcome.ok => none
      | Outcome.panics pv => if d.callsRecover then none else some pv }

/-- The deferred function installed by GoWithRecover (src/goroutine.go
lines 70 to 74): it always calls recover(), and invokes customRecover(err)
exactly when recover() yielded a non-nil err and customRecover is non-nil.
`customRecover = none` models a nil recover handler; a non-nil handler is
a function from the fault value to the events it performs. -/
def recoverDefer {V R : Type} (customRecover : Option (V → List (Event V R))) :
    Deferred V R :=
  { callsRecover := true
    run := fun err =>
      match err, customRecover with
      | some v, some h => h v
      | _, _ => [] }

/-- Result of a launch call as the caller observes it: whether a strand was
scheduled, the fault (if any) the launch call itself raises to the caller,
and the strand execution when one was scheduled. -/
structure LaunchResult (V R : Type) where
  scheduled : Bool
  callerFault : Option (Option V)
  strand : Option (StrandResult V R)
deriving DecidableEq, Repr

/-- The events of the scheduled strand, empty when none was scheduled. -/
def LaunchResult.events {V R : Type} (lr : LaunchResult V R) : List (Event V R) :=
  match lr.strand with
  | none => []
  | some sr => sr.events

/-- The panic escaping the scheduled strand, none when none was scheduled. -/
def LaunchResult.escaped {V R : Type} (lr : LaunchResult V R) : Option (Option V) :=
  match lr.strand with
  | none => none
  | some sr => sr.escaped

/-- GoWithRecover (src/goroutine.go lines 64 to 77): a nil task is a no-op
(no strand); otherwise a strand is scheduled that runs the task body under
the recovery deferred function. The launch call itself performs no fallible
action, so it raises nothing to the caller. `task = none` models a nil
function argument; otherwise the task is given by its body outcome. -/
def GoWithRecover {V R : Type} (task : Option (Outcome V))
    (customRecover : Option (V → List (Event V R))) : LaunchResult V R :=
  match task with
  | none => { scheduled := false, callerFault := none, strand := none }
  | some o =>
      { scheduled := true
        callerFault := none
        strand := some (runWithDefer o (recoverDefer customRecover)) }

/-- The global logger slot (defaultLogger in src/goroutine.go): a single
value, `none` modelling a nil Logger. The RWMutex that guards it is
modelled by treating each access as atomic. -/
def SetLogger {R : Type} (_st : Option R) (l : Option R) : Option R := l

/-- getLogger (src/goroutine.go lines 41 to 45): returns the current slot. -/
def getLogger {R : Type} (st : Option R) : Option R := st

/-- Modelled from the spec: runtime/debug.Stack(), absent from src/ — the
spec requires that the boundary "captures an execution-trace snapshot
representing the call stack at the moment of interception" and that the
trace passed to the reporter is non-empty; the snapshot always contains at
least the header line for the current strand, followed by the frames. -/
def debugStack (frames : List String) : List String :=
  "goroutine [running]:" :: frames

/-- The recover closure that Go passes to GoWithRecover (src/goroutine.go
lines 51 to 55), evaluated against the logger slot `st` current at fault
time and the stack snapshot captured there: it reads the slot via
getLogger and, when the logger is non-nil, calls Print with the fault and
the captured stack. -/
def goRecoverClosure {V R : Type} (st : Option R) (stack : List String) :
    V → List (Event V R) :=
  fun err =>
    Event.registryRead (getLogger st) ::
      (match getLogger st with
       | some logger => [Event.reporterPrint logger err stack]
       | none => [])

/-- Go (src/goroutine.go lines 50 to 56): delegates to GoWithRecover with
the reporting closure. `st` is the logger slot at fault time and `frames`
the stack frames active at interception. -/
def Go {V R : Type} (st : Option R) (frames : List String)
    (task : Option (Outcome V)) : LaunchResult V R :=
  GoWithRecover task (some (goRecoverClosure st (debugStack frames)))

/-- A canonical opaque caller handler that records each invocation and the
value it received. -/
def handlerObserver {V R : Type} : V → List (Event V R) :=
  fun v => [Event.handlerCall v]

/-- Serialization of a sequence of SetLogger calls, as enforced by the
writer lock: each write atomically replaces the slot. -/
def applySets {R : Type} (st : Option R) (ws : List (Option R)) : Option R :=
  ws.foldl SetLogger st

/-- Prepending a write to a serialization of writes replaces the initial
slot value with the first written value. -/
theorem applySets_cons {R : Type} (st w : Option R) (t : List (Option R)) :
    applySets st (w :: t) = applySets w t := rfl

/-- Any non-empty serialization of SetLogger writes leaves the slot holding
one of the written values. -/
theorem applySets_mem {R : Type} :
    ∀ (ws : List (Option R)) (st : Option R), ws ≠ [] → applySets st ws ∈ ws := by
  intro ws
  induction ws with
  | nil => intro st h; exact absurd rfl h
  | cons w t ih =>
      intro st _
      rw [applySets_cons]
      cases t with
      | nil => simp [applySets]
      | cons w2 t2 => exact List.mem_cons_of_mem w (ih w (by simp))

/-- C1: For every task passed to Go or GoWithRecover, a panic raised inside
the task is intercepted by the recovery boundary and never propagates past
it: no panic escapes the strand, and neither launch call raises anything
to the caller. -/
theorem fault_containment {V R : Type} (task : Option (Outcome V))
    (customRecover : Option (V → List (Event V R)))
    (st : Option R) (frames : List String) :
    (GoWithRecover task customRecover).callerFault = none ∧
    (GoWithRecover task customRecover).escaped = none ∧
    (Go st frames task).callerFault = none ∧
    (Go (V := V) st frames task).escaped = none := by
  cases task with
  | none => exact ⟨rfl, rfl, rfl, rfl⟩
  | some o =>
      cases o <;>
        simp [GoWithRecover, Go, LaunchResult.escaped, runWithDefer, recoverDefer]

/-- C2: On a task panicking with value v, Go calls Print on the installed
logger exactly once with v and the non-empty captured stack when a logger
is installed at fault time; with a nil logger installed no Print occurs;
and after SetLogger replaces the slot with a custom logger, a subsequent
Go on a panicking task routes the fault, equal to the panic payload, to
that custom logger exactly once. -/
theorem go_default_path_reporting {V R : Type} (st : Option R) (r : R) (v : V)
    (frames : List String) :
    (∀ rep : R, st = some rep →
        reporterCalls (Go st frames (some (Outcome.panics (some v)))).events
            = [(rep, v, debugStack frames)] ∧
          debugStack frames ≠ []) ∧
    (st = none →
        reporterCalls (Go (R := R) st frames
          (some (Outcome.panics (some v)))).events = []) ∧
    reporterCalls (Go (SetLogger st (some r)) frames
        (some (Outcome.panics (some v)))).events = [(r, v, debugStack frames)] := by
  refine ⟨?_, ?_, ?_⟩
  · intro rep hrep
    subst hrep
    exact ⟨rfl, by simp [debugStack]⟩
  · intro hnil
    subst hnil
    rfl
  · rfl

/-- Witness for C2 at concrete inputs: slot holding logger 0, custom
logger 1, panic value 5, empty frame list. -/
theorem go_default_path_reporting_witness :
    reporterCalls (Go (some 0) [] (some (Outcome.panics (some 5)))).events
        = [(0, 5, debugStack [])] ∧
      reporterCalls (Go (SetLogger (some 0) (some 1)) []
          (some (Outcome.panics (some 5)))).events = [(1, 5, debugStack [])] :=
  ⟨((go_default_path_reporting (some (0 : Nat)) 1 (5 : Nat) []).1 0 rfl).1,
    (go_default_path_reporting (some (0 : Nat)) 1 (5 : Nat) []).2.2⟩

/-- C3: On a task panicking with value v, GoWithRecover invokes the
supplied handler exactly once with v alone: the strand events are exactly
the events of one handler invocation at v, and with an opaque observing
handler the boundary performs exactly one handler call carrying v and no
trace, never reads the logger slot, and never calls Print on any logger. -/
theorem launch_with_handler_direct {V R : Type} (v : V)
    (h : V → List (Event V R)) :
    (GoWithRecover (some (Outcome.panics (some v))) (some h)).events = h v ∧
    handlerCalls (GoWithRecover (R := R) (some (Outcome.panics (some v)))
        (some handlerObserver)).events = [v] ∧
    registryReads (GoWithRecover (R := R) (some (Outcome.panics (some v)))
        (some handlerObserver)).events = [] ∧
    reporterCalls (GoWithRecover (R := R) (some (Outcome.panics (some v)))
        (some handlerObserver)).events = [] :=
  ⟨rfl, rfl, rfl, rfl⟩

/-- C4: Per launch, at most one of the default reporter and the caller
handler is invoked, that one at most once, and only on a fault: on the Go
path the Print calls and handler calls together number at most one, the
same holds on the GoWithRecover path, and a task completing normally
produces no events at all on either path. -/
theorem single_invocation_invariant {V R : Type} (o : Outcome V) (st : Option R)
    (frames : List String) :
    (reporterCalls (Go st frames (some o)).events).length
        + (handlerCalls (Go st frames (some o)).events).length ≤ 1 ∧
    (reporterCalls (GoWithRecover (R := R) (some o)
          (some handlerObserver)).events).length
        + (handlerCalls (GoWithRecover (R := R) (some o)
          (some handlerObserver)).events).length ≤ 1 ∧
    (o = Outcome.ok →
        (Go st frames (some o)).events = [] ∧
        (GoWithRecover (R := R) (some o) (some handlerObserver)).events = []) := by
  refine ⟨?_, ?_, ?_⟩
  · cases o with
    | ok => simp [Go, GoWithRecover, LaunchResult.events, runWithDefer,
        recoverDefer, recoverOf, reporterCalls, handlerCalls]
    | panics pv =>
        cases pv with
        | none => simp [Go, GoWithRecover, LaunchResult.events, runWithDefer,
            recoverDefer, recoverOf, reporterCalls, handlerCalls]
        | some v =>
            cases st with
            | none => simp [Go, GoWithRecover, LaunchResult.events, runWithDefer,
                recoverDefer, recoverOf, goRecoverClosure, getLogger,
                reporterCalls, handlerCalls]
            | some rep => simp [Go, GoWithRecover, LaunchResult.events,
                runWithDefer, recoverDefer, recoverOf, goRecoverClosure,
                getLogger, reporterCalls, handlerCalls]
  · cases o with
    | ok => simp [GoWithRecover, LaunchResult.events, runWithDefer,
        recoverDefer, recoverOf, reporterCalls, handlerCalls]
    | panics pv => cases pv <;> simp [GoWithRecover, LaunchResult.events,
        runWithDefer, recoverDefer, recoverOf, handlerObserver,
        reporterCalls, handlerCalls]
  · intro hok
    subst hok
    exact ⟨rfl, rfl⟩

/-- Witness for C4 at concrete inputs: a normally completing task under a
non-nil installed logger produces no events on either path. -/
theorem single_invocation_invariant_witness :
    (Go (V := Nat) (some (0 : Nat)) [] (some Outcome.ok)).events = [] ∧
      (GoWithRecover (R := Nat) (some (Outcome.ok (V := Nat)))
        (some handlerObserver)).events = [] :=
  (single_invocation_invariant (V := Nat) Outcome.ok (some (0 : Nat)) []).2.2 rfl

/-- C5: GoWithRecover with a nil task is a silent no-op: no strand is
scheduled, the handler is never invoked (no events at all), and no fault
is raised to the caller. -/
theorem nil_task_noop {V R : Type} (h : V → List (Event V R)) :
    (GoWithRecover none (some h)).scheduled = false ∧
    (GoWithRecover none (some h)).events = [] ∧
    (GoWithRecover none (some h)).callerFault = none ∧
    (GoWithRecover none (some h)).strand = none :=
  ⟨rfl, rfl, rfl, rfl⟩

/-- C6: GoWithRecover with a nil handler on a panicking task intercepts the
fault and silently discards it: a strand is scheduled, no events occur, no
panic escapes the strand, and nothing is raised to the caller. -/
theorem nil_handler_discard {V R : Type} (pv : Option V) :
    (GoWithRecover (R := R) (some (Outcome.panics pv)) none).scheduled = true ∧
    (GoWithRecover (R := R) (some (Outcome.panics pv)) none).events = [] ∧
    (GoWithRecover (R := R) (some (Outcome.panics pv)) none).escaped = none ∧
    (GoWithRecover (R := R) (some (Outcome.panics pv)) none).callerFault = none := by
  cases pv <;> exact ⟨rfl, rfl, rfl, rfl⟩

/-- C7: Get-after-set round trip on the logger slot: after SetLogger
installs r (nil included), getLogger returns exactly r; both operations
are total pure functions of the slot, so neither can fail or raise. -/
theorem reporter_get_after_set {R : Type} (st r : Option R) :
    getLogger (SetLogger st r) = r := rfl

/-- C8: Under concurrent SetLogger calls, serialized by the writer lock
into some total order of atomic replacements, a getLogger call after the
writes yields exactly one of the supplied values, never a corrupted or
partial one. -/
theorem concurrent_set_reporter {R : Type} (st : Option R)
    (ws : List (Option R)) (hw : ws ≠ []) :
    getLogger (applySets st ws) ∈ ws :=
  applySets_mem ws st hw

/-- Witness for C8 at concrete inputs: three writers racing from initial
slot 0; the read yields one of the three written values. -/
theorem concurrent_set_reporter_witness :
    getLogger (applySets (some (0 : Nat)) [some 1, some 2, none])
      ∈ [some 1, some 2, none] :=
  concurrent_set_reporter (some (0 : Nat)) [some 1, some 2, none] (by decide)

/-- C9: Go with a nil task is also a silent no-op, because Go delegates to
GoWithRecover: no strand is scheduled, no events occur (so no reporter is
invoked), and no fault is raised to the caller. -/
theorem go_nil_task_noop {V R : Type} (st : Option R) (frames : List String) :
    (Go (V := V) st frames none).scheduled = false ∧
    (Go (V := V) st frames none).events = [] ∧
    (Go (V := V) st frames none).callerFault = none ∧
    (Go (V := V) st frames none).strand = none :=
  ⟨rfl, rfl, rfl, rfl⟩

/-- C10: A task whose panic leaves recover() yielding nil is contained but
silently discarded on both paths, even with a non-nil handler or logger
installed: no events occur, no panic escapes, nothing reaches the caller. -/
theorem nil_fault_value_discarded {V R : Type} (st : Option R)
    (frames : List String) (h : V → List (Event V R)) :
    (Go st frames (some (Outcome.panics (none : Option V)))).events = [] ∧
    (Go (R := R) st frames (some (Outcome.panics (none : Option V)))).escaped
        = none ∧
    (GoWithRecover (some (Outcome.panics (none : Option V))) (some h)).events
        = [] ∧
    (GoWithRecover (some (Outcome.panics (none : Option V))) (some h)).escaped
        = none ∧
    (GoWithRecover (some (Outcome.panics (none : Option V)))
        (some h)).callerFault = none :=
  ⟨rfl, rfl, rfl, rfl, rfl⟩

end Tsafe
